import Mathlib

/-!
Verification development for the CourtEase backend (`src/app.js`).

The repository is a single Express application file containing two
near-identical route sets (the file concatenates two revisions of the app).
All external collaborators (Firebase identity provider, Firestore document
store, Gemini AI, Indian Kanoon search, the mail relay) are modelled as
explicit parameters: an external call's outcome is an `Except`/`Option`
argument, a stored collection is an association list, and `JSON.parse` is an
oracle argument `parse`.  Every definition mirrors one function or route
handler of `src/app.js`; text processing (fence stripping, trimming) is
embedded at the `List Char` level with JS `replace(/pat/g, "")` semantics.
-/

namespace CourtEase

/-!
### JS string primitives

`stripAll pat l` deletes every non-overlapping occurrence of `pat` from `l`,
scanning left to right — the semantics of JS `s.replace(/pat/g, "")` for a
literal pattern.  `trimChars` is JS `trim()` restricted to ASCII whitespace.
-/

def stripAllAux (pat : List Char) : Nat → List Char → List Char
  | _, [] => []
  | 0, l => l
  | fuel + 1, c :: rest =>
    if pat.isPrefixOf (c :: rest) && !pat.isEmpty then
      stripAllAux pat fuel (List.drop (pat.length - 1) rest)
    else c :: stripAllAux pat fuel rest

def stripAll (pat l : List Char) : List Char := stripAllAux pat l.length l

def jsWhitespace (c : Char) : Bool := c = ' ' || c = '\t' || c = '\n' || c = '\r'

def trimChars (l : List Char) : List Char :=
  ((l.dropWhile jsWhitespace).reverse.dropWhile jsWhitespace).reverse

/-!
### Markdown fence stripping

`cleanFences` embeds the shared cleaning step of `processDocument` and
`analyzeCase`:
`text.replace(/```json/g, "").replace(/```/g, "").trim()`.
-/

def fenceJson : List Char := "```json".data

def fence : List Char := "```".data

def backtick : Char := Char.ofNat 96

def cleanFences (s : String) : String :=
  String.mk (trimChars (stripAll fence (stripAll fenceJson s.data)))

/-!
### Firestore documents and mail

A written Firestore document is an association list of field names to values
(`db.collection(..).doc(..).set(fields)`).  A `Mail` record models one
invocation of the app's `sendMail` helper (the helper itself swallows relay
failures, so an invocation is exactly "one send attempted").
-/

inductive FSVal where
  | str (s : String)
  | num (n : Int)
  | null
  | arr (elems : List FSVal)
  | map (fields : List (String × FSVal))
  | timestamp

structure Mail where
  recipient : String
  subject : String
  body : String
deriving DecidableEq

/-!
### Auth adapter — first route set (`registerUser`, `loginUser`, app.js 85–126)

The identity provider is modelled by a credential table `List Cred`; the
`signInWithPassword` REST call (app.js 116–117) succeeds exactly when the
submitted email/password pair matches a stored credential, which is the
provider's password-grant contract.
-/

structure Cred where
  email : String
  password : String
  uid : String
deriving DecidableEq

def identitySignIn (creds : List Cred) (email password : String) : Except String String :=
  match creds.find? (fun c => c.email == email) with
  | none => .error "EMAIL_NOT_FOUND"
  | some c => if c.password == password then .ok c.uid else .error "INVALID_PASSWORD"

structure Stats where
  cases : Nat
  docs : Nat
deriving DecidableEq

/-- The `users` collection document read back by `loginUser` (app.js 119–120). -/
structure Profile where
  name : String
  role : String
  stats : Stats
deriving DecidableEq

/-- `doc.exists ? doc.data() : { name: "User", role: "Litigant", stats: {cases:0, docs:0} }`
(app.js 120). -/
def defaultProfile : Profile := ⟨"User", "Litigant", ⟨0, 0⟩⟩

structure LoginUserPayload where
  id : String
  profile : Profile
  email : String
deriving DecidableEq

structure LoginResponse where
  success : Bool
  user : Option LoginUserPayload
  message : Option String
deriving DecidableEq

/-- `loginUser` live branch (app.js 114–122): exchange credentials, fetch the
profile document, fall back to `defaultProfile` when it does not exist. -/
def loginUserLive (signIn : Except String String) (users : String → Option Profile)
    (email : String) : LoginResponse :=
  match signIn with
  | .error m => ⟨false, none, some m⟩
  | .ok uid => ⟨true, some ⟨uid, (users uid).getD defaultProfile, email⟩, none⟩

def loginUser (creds : List Cred) (users : String → Option Profile)
    (email password : String) : LoginResponse :=
  loginUserLive (identitySignIn creds email password) users email

/-- In-memory record pushed by the mock branch of `registerUser` (app.js 109):
`MOCK_DB.users.push({ name, email, password, role })` — the password is stored
in plain text. -/
structure MockUser where
  name : String
  email : String
  password : String
  role : String
deriving DecidableEq

structure MockLoginResponse where
  success : Bool
  user : Option MockUser
  message : Option String
deriving DecidableEq

/-- Mock branch of `registerUser` (app.js 109–110): returns the grown user list
and the response. -/
def registerUserMock (dbUsers : List MockUser) (name email password role : String) :
    List MockUser × MockLoginResponse :=
  (dbUsers ++ [⟨name, email, password, role⟩], ⟨true, none, some "Mock Registered"⟩)

/-- Mock branch of `loginUser` (app.js 124–125): linear scan for a record whose
email and plaintext password both match; the whole record is the `user` payload. -/
def loginUserMock (dbUsers : List MockUser) (email password : String) : MockLoginResponse :=
  match dbUsers.find? (fun u => u.email == email && u.password == password) with
  | some u => ⟨true, some u, none⟩
  | none => ⟨false, none, some "Invalid Credentials"⟩

/-!
### Registration — first route set (`registerUser` live branch, app.js 85–108)
-/

def zeroStatsVal : FSVal := .map [("cases", .num 0), ("docs", .num 0)]

/-- The `users/{uid}` document written by `registerUser` (app.js 91–95). -/
def registerUserDoc (name email role createdAt : String) : List (String × FSVal) :=
  [("name", .str name), ("email", .str email), ("role", .str role),
   ("createdAt", .str createdAt), ("stats", zeroStatsVal)]

def welcomeMailBody (name role : String) : String :=
  "<h2>Welcome, " ++ name ++ "!</h2> <p>Your account has been successfully created as a <b>"
    ++ role ++ "</b>.</p> <p>You can now log in to your dashboard.</p>"

structure RegisterOutcome where
  success : Bool
  message : Option String
  written : Option (String × List (String × FSVal))
  mails : List Mail

/-- `registerUser` live branch (app.js 86–108), parameterised by the outcome of
`admin.auth().createUser` (`.ok uid` or `.error message`). -/
def registerUser (createUser : Except String String) (name email _password role createdAt : String) :
    RegisterOutcome :=
  match createUser with
  | .error m => ⟨false, some m, none, []⟩
  | .ok uid =>
      ⟨true, none, some (uid, registerUserDoc name email role createdAt),
        [⟨email, "Welcome to CourtEase", welcomeMailBody name role⟩]⟩

/-!
### Auth — second route set (`POST /api/register`, `POST /api/login`,
app.js 1220–1300)
-/

/-- The `users/{userId}` document written by the second route set's
registration handler (app.js 1248–1252): only `email` and `createdAt`. -/
def registerApi2Doc (email : String) : List (String × FSVal) :=
  [("email", .str email), ("createdAt", .timestamp)]

/-- `POST /api/register` of the second route set (app.js 1220–1275). -/
def registerApi2 (live : Bool) (createUser : Except String String)
    (email _password : String) : RegisterOutcome :=
  if !live then ⟨true, some "User mock-registered (Firebase not live)", none, []⟩
  else
    match createUser with
    | .ok uid =>
        ⟨true, some "User registered successfully. Welcome email sent.",
          some (uid, registerApi2Doc email),
          [⟨email, "Welcome to CourtEase!",
            "<p>Hello,</p><p>Thank you for registering! Your account has been successfully created.</p>"⟩]⟩
    | .error code =>
        ⟨false,
          some (if code == "auth/email-already-in-use" then "This email is already in use."
            else "Registration failed."), none, []⟩

structure LoginApi2Response where
  success : Bool
  token : Option String
  userId : Option String
  message : Option String
deriving DecidableEq

/-- Models `auth.createCustomToken(uid)`. -/
def createCustomToken (uid : String) : String := "custom-token-" ++ uid

/-- Models `auth.getUserByEmail(email)`: a lookup by email only — the password
is never consulted. -/
def getUserByEmail (creds : List Cred) (email : String) : Except String String :=
  match creds.find? (fun c => c.email == email) with
  | some c => .ok c.uid
  | none => .error "auth/user-not-found"

/-- `POST /api/login` of the second route set (app.js 1281–1300).  The handler
reads only `email` from the body; no password check occurs. -/
def loginApi2 (live : Bool) (creds : List Cred) (email : String) : LoginApi2Response :=
  if !live then ⟨true, some "mock-jwt-token", none, some "Mock Login Success"⟩
  else
    match getUserByEmail creds email with
    | .ok uid =>
        ⟨true, some (createCustomToken uid), some uid, some "Login successful (Token generated)"⟩
    | .error _ => ⟨false, none, none, some "Invalid credentials or user not found."⟩

/-!
### Search adapter — `searchJudgments` (app.js 139–157) and
`POST /api/ai/legal-research` (app.js 1384–1420)
-/

structure SearchResult where
  title : String
  court : String
  link : String
deriving DecidableEq

/-- One document of the Indian Kanoon response (`res.data.docs`). -/
structure KanoonDoc where
  title : String
  docsource : String
  tid : String
deriving DecidableEq

/-- The fixed two-landmark-case fallback list (app.js 153–156). -/
def fallbackJudgments : List SearchResult :=
  [⟨"Kesavananda Bharati v. State of Kerala", "Supreme Court", "#"⟩,
   ⟨"Vishaka v. State of Rajasthan", "Supreme Court", "#"⟩]

/-- `searchJudgments` (app.js 139–157): with a configured token, forward the
query and map the docs; on an upstream throw, or with no token, return the
fallback list. -/
def searchJudgments (token : Option String) (upstream : Except String (List KanoonDoc)) :
    List SearchResult :=
  match token with
  | some _ =>
      match upstream with
      | .ok docs =>
          docs.map (fun d => ⟨d.title, d.docsource, "https://indiankanoon.org/doc/" ++ d.tid ++ "/"⟩)
      | .error _ => fallbackJudgments
  | none => fallbackJudgments

structure KanoonResult where
  title : String
  url : String
deriving DecidableEq

/-- An axios rejection: optional HTTP status of the response, and a message. -/
structure AxiosFailure where
  status : Option Nat
  message : String
deriving DecidableEq

inductive ResearchResponse where
  | ok (results : List KanoonResult)
  | err (status : Nat) (message : String)
deriving DecidableEq

/-- `POST /api/ai/legal-research` of the second route set (app.js 1384–1420):
a missing token or an upstream failure is surfaced as an HTTP 500 error
response, not as a fallback list. -/
def legalResearchApi (live : Bool) (token : Option String)
    (upstream : Except AxiosFailure (List KanoonResult)) : ResearchResponse :=
  if !live then .ok [⟨"Mock Judgement 1", "#"⟩, ⟨"Mock Judgement 2", "#"⟩]
  else
    match token with
    | none => .err 500 "INDIAN_KANOON_TOKEN not configured."
    | some _ =>
        match upstream with
        | .ok rs => .ok (rs.map (fun r => ⟨r.title, r.url⟩))
        | .error e =>
            .err 500 (if e.status == some 401 then "Unauthorized: Invalid Indian Kanoon Token."
              else "Legal research failed. Check if Indian Kanoon Token is valid.")

/-!
### AI adapter — `processDocument` (app.js 161–228) and `analyzeCase`
(app.js 253–281)

`JSON.parse` is an oracle `parse : String → Except String V`: `.error m`
models a thrown `SyntaxError` with message `m`.  The SDK call outcome is
`sdk`; `.ok none` models a falsy `text` (app.js 187).  The raw-HTTP fallback
outcome is `rest` (its extracted candidate text is always a string,
app.js 219).
-/

/-- The shape of `defaultErrorResponse`-style objects of `processDocument`
(app.js 176): `{ summary, facts, judgments, solutions }`. -/
structure DocErrShape (V : Type) where
  summary : String
  facts : String
  judgments : List V
  solutions : List V
deriving DecidableEq

inductive ProcResult (V : Type) where
  | parsed (v : V)
  | soft (r : DocErrShape V)
deriving DecidableEq

/-- The REST fallback block of `processDocument` (app.js 199–227). -/
def processDocumentRest (parse : String → Except String V)
    (rest : Except String String) : ProcResult V :=
  match rest with
  | .ok txt =>
      match parse (cleanFences txt) with
      | .ok v => .parsed v
      | .error _ => .soft ⟨"AI returned non-JSON (REST). Raw: " ++ cleanFences txt, "", [], []⟩
  | .error msg => .soft ⟨"Error analyzing document: " ++ msg, "", [], []⟩

/-- `processDocument` (app.js 161–228). -/
def processDocument (parse : String → Except String V) (haveKey haveSDK : Bool)
    (sdk : Except String (Option String)) (rest : Except String String) : ProcResult V :=
  if !haveKey then .soft ⟨"AI Key Missing", "", [], []⟩
  else if haveSDK then
    match sdk with
    | .ok (some text) =>
        match parse (cleanFences text) with
        | .ok v => .parsed v
        | .error _ =>
            .soft ⟨"AI returned non-JSON output (SDK). Raw: " ++ cleanFences text, "", [], []⟩
    | .ok none => processDocumentRest parse rest
    | .error _ => processDocumentRest parse rest
  else processDocumentRest parse rest

/-- The shape of `analyzeCase`'s `defaultErrorResponse` (app.js 258):
`{ summary, facts, strengths, weaknesses }`. -/
structure SwotErrShape (V : Type) where
  summary : String
  facts : String
  strengths : List V
  weaknesses : List V
deriving DecidableEq

inductive SwotResult (V : Type) where
  | parsed (v : V)
  | soft (r : SwotErrShape V)
deriving DecidableEq

/-- The REST fallback block of `analyzeCase` (app.js 270–280).  Its `catch`
also catches the `JSON.parse` throw, so a parse failure yields
`"Analysis Failed: " ++ error message` — the raw model text is dropped. -/
def analyzeCaseRest (parse : String → Except String V) (inputText : String)
    (rest : Except String String) : SwotResult V :=
  match rest with
  | .ok txt =>
      match parse (cleanFences txt) with
      | .ok v => .parsed v
      | .error em => .soft ⟨"Analysis Failed: " ++ em, inputText, [], []⟩
  | .error msg => .soft ⟨"Analysis Failed: " ++ msg, inputText, [], []⟩

/-- `analyzeCase` (app.js 253–281).  In the SDK branch the `JSON.parse` call
sits inside the `try`, so a parse failure falls through to the REST block. -/
def analyzeCase (parse : String → Except String V) (haveKey haveSDK : Bool)
    (inputText : String) (sdk : Except String String) (rest : Except String String) :
    SwotResult V :=
  if !haveKey then .soft ⟨"AI Error - key missing", "", [], []⟩
  else if haveSDK then
    match sdk with
    | .ok txt =>
        match parse (cleanFences txt) with
        | .ok v => .parsed v
        | .error _ => analyzeCaseRest parse inputText rest
    | .error _ => analyzeCaseRest parse inputText rest
  else analyzeCaseRest parse inputText rest

/-!
### Upstream attempt counts (for the retry claim)

Each function counts how many times the handling of one request reaches the
generative-AI inference service (SDK call at app.js 186 / 237 / 263, REST call
at app.js 217 / 245 / 273), or the search / mail services.
-/

def processDocumentCalls (haveKey haveSDK : Bool) (sdk : Except String (Option String)) : Nat :=
  if !haveKey then 0
  else if haveSDK then
    match sdk with
    | .ok (some _) => 1
    | .ok none => 2
    | .error _ => 2
  else 1

def chatAICalls (haveKey haveSDK : Bool) (sdk : Except String String) : Nat :=
  if !haveKey then 0
  else if haveSDK then
    match sdk with
    | .ok _ => 1
    | .error _ => 2
  else 1

def analyzeCaseCalls (parse : String → Except String V) (haveKey haveSDK : Bool)
    (sdk : Except String String) : Nat :=
  if !haveKey then 0
  else if haveSDK then
    match sdk with
    | .ok txt =>
        match parse (cleanFences txt) with
        | .ok _ => 1
        | .error _ => 2
    | .error _ => 2
  else 1

def searchJudgmentsCalls (token : Option String) : Nat :=
  if token.isSome then 1 else 0

/-- `sendMail` (app.js 977–993): one relay attempt when credentials are
configured, none otherwise; a relay failure is caught, never retried. -/
def sendMailCalls (haveMailCreds : Bool) : Nat :=
  if haveMailCreds then 1 else 0

/-!
### Case store — `saveCaseToDB` (app.js 995–1011), the second route set's case
write inside `POST /api/ai/analyze-document` (app.js 1356–1364), and
`POST /api/cases/update-status` (app.js 1076–1091)
-/

/-- The AI analysis payload persisted by `saveCaseToDB` (field values are
opaque here — only field names and the constants matter). -/
structure CaseData where
  summary : FSVal
  facts : FSVal
  judgments : FSVal
  solutions : FSVal

/-- The `cases/{caseId}` document written by `saveCaseToDB` (app.js 998–1009):
initial status `"Submitted"`, empty notes, null hearing date. -/
def saveCaseDoc (caseId userId : String) (d : CaseData) (createdAt : String) :
    List (String × FSVal) :=
  [("caseId", .str caseId), ("userId", .str userId), ("summary", d.summary),
   ("facts", d.facts), ("judgments", d.judgments), ("solutions", d.solutions),
   ("status", .str "Submitted"), ("notes", .arr []), ("hearingDate", .null),
   ("createdAt", .str createdAt)]

/-- `saveCaseToDB` (app.js 995–1011): returns the allocated case id and, in
live mode, the written document.  `nowMs` stands for `Date.now()` and
`nowIso` for `new Date().toISOString()`. -/
def saveCaseToDB (live : Bool) (nowMs nowIso userId : String) (d : CaseData) :
    String × Option (List (String × FSVal)) :=
  if !live then ("MOCK-CASE-" ++ nowMs, none)
  else
    let caseId := "CASE-" ++ nowMs
    (caseId, some (saveCaseDoc caseId userId d nowIso))

/-- The `cases/{caseId}` document written by the second route set's
`POST /api/ai/analyze-document` (app.js 1356–1364): status
`"New Case - Review Required"`, and no `notes` or `hearingDate` field at all. -/
def analyzeDocumentCaseDoc (uid : String) (summary parties keywords : FSVal) :
    List (String × FSVal) :=
  [("userId", .str uid), ("summary", summary), ("parties", parties),
   ("keywords", keywords), ("status", .str "New Case - Review Required"),
   ("createdAt", .timestamp)]

/-- A stored case record, as read by the update routes. -/
structure CaseRec where
  userId : String
  status : String
  hearingDate : Option String
deriving DecidableEq

/-- A stored user record, as read for notification (only `email` is used). -/
structure UserRec where
  email : String
deriving DecidableEq

structure Store where
  cases : List (String × CaseRec)
  users : List (String × UserRec)

def statusMailBody (caseId status : String) : String :=
  "<p>The status for your case (<b>" ++ caseId ++ "</b>) has been updated to <b>"
    ++ status ++ "</b>.</p>"

/-- Firestore `ref.update({ status })`: replace only the `status` field of the
addressed document, leaving every other field and document unchanged. -/
def setCaseStatus : List (String × CaseRec) → String → String → List (String × CaseRec)
  | [], _, _ => []
  | (k, c) :: rest, caseId, status =>
      if caseId == k then (k, { c with status := status }) :: rest
      else (k, c) :: setCaseStatus rest caseId status

structure UpdateOutcome where
  newCases : List (String × CaseRec)
  success : Bool
  mails : List Mail

/-- `POST /api/cases/update-status` (app.js 1076–1091): unconditionally apply
the partial update (any string is accepted, no validation), re-read the case,
resolve the owner's email through the `users` collection, send one
notification when an email is found, respond `{ success: true }`.  A missing
case document makes `ref.update` reject, which the handler does not catch
(`.error`). -/
def updateStatusApi (live : Bool) (st : Store) (caseId status : String) :
    Except String UpdateOutcome :=
  if !live then .ok ⟨st.cases, true, []⟩
  else
    match st.cases.lookup caseId with
    | none => .error "NOT_FOUND"
    | some c =>
        let mails :=
          match st.users.lookup c.userId with
          | some u => [⟨u.email, "Case Update: Status Changed", statusMailBody caseId status⟩]
          | none => []
        .ok ⟨setCaseStatus st.cases caseId status, true, mails⟩

/-!
### Helper lemmas
-/

theorem stripAllAux_nil (pat : List Char) (f : Nat) : stripAllAux pat f [] = [] := by
  cases f <;> rfl

theorem stripAllAux_fuelFree (pat : List Char) :
    ∀ (n : Nat) (l : List Char) (f₁ f₂ : Nat), l.length ≤ n → l.length ≤ f₁ →
      l.length ≤ f₂ → stripAllAux pat f₁ l = stripAllAux pat f₂ l := by
  intro n
  induction n with
  | zero =>
    intro l f₁ f₂ hn _ _
    have hl : l = [] := List.eq_nil_of_length_eq_zero (Nat.le_zero.mp hn)
    subst hl
    rw [stripAllAux_nil, stripAllAux_nil]
  | succ n ih =>
    intro l f₁ f₂ hn h₁ h₂
    cases l with
    | nil => rw [stripAllAux_nil, stripAllAux_nil]
    | cons c rest =>
      simp only [List.length_cons] at hn h₁ h₂
      cases f₁ with
      | zero => omega
      | succ f₁ =>
        cases f₂ with
        | zero => omega
        | succ f₂ =>
          have hd : (List.drop (pat.length - 1) rest).length ≤ rest.length := by
            rw [List.length_drop]; omega
          simp only [stripAllAux]
          by_cases hc : (pat.isPrefixOf (c :: rest) && !pat.isEmpty) = true
          · rw [if_pos hc, if_pos hc]
            exact ih _ f₁ f₂ (by omega) (by omega) (by omega)
          · rw [if_neg hc, if_neg hc]
            exact congrArg (c :: ·) (ih rest f₁ f₂ (by omega) (by omega) (by omega))

theorem stripAll_nil (pat : List Char) : stripAll pat [] = [] := rfl

theorem stripAll_append_left (pat : List Char) (hne : pat ≠ []) (l : List Char) :
    stripAll pat (pat ++ l) = stripAll pat l := by
  cases pat with
  | nil => exact absurd rfl hne
  | cons b p =>
    have hpre : (b :: p).isPrefixOf ((b :: p) ++ l) = true :=
      List.isPrefixOf_iff_prefix.mpr (List.prefix_append _ _)
    show stripAllAux (b :: p) ((b :: p) ++ l).length ((b :: p) ++ l) = _
    rw [List.cons_append] at hpre ⊢
    simp only [List.length_cons, stripAllAux, hpre, List.isEmpty_cons, Bool.not_false,
      Bool.and_true, if_true]
    have hdrop : List.drop (p.length + 1 - 1) (p ++ l) = l := by
      rw [Nat.add_sub_cancel]
      exact List.drop_left p l
    rw [hdrop]
    exact stripAllAux_fuelFree (b :: p) (p ++ l).length l _ _
      (by simp [List.length_append]) (by simp [List.length_append]) (Nat.le_refl _)

theorem stripAll_cons_skip (pat : List Char) (b : Char) (hb : pat.head? = some b)
    (c : Char) (hc : c ≠ b) (l : List Char) :
    stripAll pat (c :: l) = c :: stripAll pat l := by
  cases pat with
  | nil => simp at hb
  | cons b' p =>
    have hb' : b' = b := by simpa using hb
    have hne : (b' == c) = false := by
      simp only [beq_eq_false_iff_ne, ne_eq, hb']
      exact fun h => hc h.symm
    have hpre : (b' :: p).isPrefixOf (c :: l) = false := by
      simp [List.isPrefixOf, hne]
    show stripAllAux (b' :: p) (c :: l).length (c :: l) = _
    simp only [List.length_cons, stripAllAux, hpre, Bool.false_and, if_false]
    rfl

theorem stripAll_append_skip (pat : List Char) (b : Char) (hb : pat.head? = some b)
    (c : List Char) (hc : b ∉ c) (l : List Char) :
    stripAll pat (c ++ l) = c ++ stripAll pat l := by
  induction c with
  | nil => simp
  | cons a c ih =>
    have ha : a ≠ b := fun h => hc (h ▸ List.mem_cons_self a c)
    rw [List.cons_append, stripAll_cons_skip pat b hb a ha,
      ih (fun h => hc (List.mem_cons_of_mem a h)), List.cons_append]

theorem stripAll_of_not_mem (pat : List Char) (b : Char) (hb : pat.head? = some b)
    (l : List Char) (hl : b ∉ l) : stripAll pat l = l := by
  have h := stripAll_append_skip pat b hb l hl []
  simpa [stripAll_nil] using h

theorem mem_trimChars {a : Char} {l : List Char} (h : a ∈ trimChars l) : a ∈ l := by
  unfold trimChars at h
  rw [List.mem_reverse] at h
  have h2 := (List.dropWhile_sublist jsWhitespace).subset h
  rw [List.mem_reverse] at h2
  exact (List.dropWhile_sublist jsWhitespace).subset h2

theorem data_append (a b : String) : (a ++ b).data = a.data ++ b.data := rfl


theorem cleanFences_fenced (c : String) (hc : backtick ∉ c.data) :
    cleanFences ("```json" ++ c ++ "```") = String.mk (trimChars c.data) := by
  unfold cleanFences
  have hdata : ("```json" ++ c ++ "```").data = fenceJson ++ (c.data ++ fence) := by
    rw [data_append, data_append]
    simp [fenceJson, fence]
  rw [hdata, stripAll_append_left fenceJson (by decide),
    stripAll_append_skip fenceJson backtick (by decide) c.data hc]
  have h1 : stripAll fenceJson fence = fence := by decide
  rw [h1, stripAll_append_skip fence backtick (by decide) c.data hc]
  have h2 : stripAll fence fence = [] := by decide
  rw [h2, List.append_nil]

theorem cleanFences_no_backtick (c : String) (hc : backtick ∉ c.data) :
    ∀ a ∈ (cleanFences ("```json" ++ c ++ "```")).data, a ≠ backtick := by
  intro a ha
  rw [cleanFences_fenced c hc] at ha
  exact fun h => hc (h ▸ mem_trimChars ha)

theorem setCaseStatus_lookup (caseId status : String) :
    ∀ (l : List (String × CaseRec)) (c : CaseRec), l.lookup caseId = some c →
      (setCaseStatus l caseId status).lookup caseId = some { c with status := status } := by
  intro l
  induction l with
  | nil => intro c h; simp [List.lookup] at h
  | cons kv rest ih =>
    intro c h
    obtain ⟨k, c'⟩ := kv
    rw [List.lookup] at h
    cases hk : caseId == k
    case true =>
      rw [hk] at h
      have hc : c' = c := Option.some.inj h
      subst hc
      simp [setCaseStatus, hk, List.lookup]
    case false =>
      rw [hk] at h
      have h' : List.lookup caseId rest = some c := h
      simp only [setCaseStatus, hk, Bool.false_eq_true, if_false, List.lookup]
      exact ih c h'

/-!
## Claim theorems
-/

/-- Claim C1, counterexample: the second route set's `POST /api/login`
(app.js 1281–1300) never checks the password.  With a stored credential whose
password is `"correct-password"`, a login attempt whose password
`"wrong-password"` does not match still yields `success = true` together with
a session token — refuting the claim for this cited login operation. -/
theorem c1_counterexample :
    "wrong-password" ≠ "correct-password"
    ∧ (loginApi2 true [⟨"user@example.com", "correct-password", "uid-1"⟩]
        "user@example.com").success = true
    ∧ (loginApi2 true [⟨"user@example.com", "correct-password", "uid-1"⟩]
        "user@example.com").token = some "custom-token-uid-1" := by
  exact ⟨by decide, rfl, rfl⟩

/-- Claim C1, amended: for the first route set's `loginUser` (app.js 113–126)
the claim holds — in live mode, when no stored credential matches the
submitted email/password pair, the provider rejects and the response is
`success = false` with no user payload (the response carries no token field at
all); likewise in mock mode.  The second route set's `POST /api/login` is
excluded: it does not verify passwords (see the counterexample). -/
theorem c1_loginUser_wrong_password (creds : List Cred) (users : String → Option Profile)
    (dbUsers : List MockUser) (email password : String)
    (hLive : ∀ c ∈ creds, c.email = email → c.password ≠ password)
    (hMock : ∀ u ∈ dbUsers, u.email = email → u.password ≠ password) :
    ((loginUser creds users email password).success = false
      ∧ (loginUser creds users email password).user = none)
    ∧ ((loginUserMock dbUsers email password).success = false
      ∧ (loginUserMock dbUsers email password).user = none) := by
  constructor
  · unfold loginUser identitySignIn
    cases hf : creds.find? (fun c => c.email == email) with
    | none => simp [loginUserLive]
    | some c =>
      have hcmem := List.mem_of_find?_eq_some hf
      have hce : c.email = email := by
        have := List.find?_some hf
        simpa using this
      have hcp : (c.password == password) = false := by
        simp only [beq_eq_false_iff_ne, ne_eq]
        exact hLive c hcmem hce
      simp [loginUserLive, hcp]
  · have hf : dbUsers.find? (fun u => u.email == email && u.password == password) = none := by
      apply List.find?_eq_none.mpr
      intro u hu
      simp only [Bool.and_eq_true, beq_iff_eq, not_and]
      exact fun he => hMock u hu he
    simp [loginUserMock, hf]

/-- Witness for C1's amended theorem at a concrete credential table, user
store and mock user list. -/
theorem c1_witness :
    ((loginUser [⟨"user@example.com", "correct-password", "uid-1"⟩] (fun _ => none)
        "user@example.com" "wrong-password").success = false
      ∧ (loginUser [⟨"user@example.com", "correct-password", "uid-1"⟩] (fun _ => none)
        "user@example.com" "wrong-password").user = none)
    ∧ ((loginUserMock [⟨"Asha", "user@example.com", "correct-password", "Litigant"⟩]
        "user@example.com" "wrong-password").success = false
      ∧ (loginUserMock [⟨"Asha", "user@example.com", "correct-password", "Litigant"⟩]
        "user@example.com" "wrong-password").user = none) :=
  c1_loginUser_wrong_password [⟨"user@example.com", "correct-password", "uid-1"⟩]
    (fun _ => none) [⟨"Asha", "user@example.com", "correct-password", "Litigant"⟩]
    "user@example.com" "wrong-password" (by decide) (by decide)

/-- Claim C2, counterexample: the second route set's `POST /api/register`
(app.js 1220–1275) reports success but writes a profile document containing
only `email` and `createdAt` — no `role` field equal to the submitted role and
no zeroed `stats` field — refuting the claim for this cited registration
operation. -/
theorem c2_counterexample :
    (registerApi2 true (.ok "uid-1") "user@example.com" "pw").success = true
    ∧ (registerApi2 true (.ok "uid-1") "user@example.com" "pw").written
        = some ("uid-1", registerApi2Doc "user@example.com")
    ∧ (registerApi2Doc "user@example.com").lookup "role" = none
    ∧ (registerApi2Doc "user@example.com").lookup "stats" = none := by
  exact ⟨rfl, rfl, rfl, rfl⟩

/-- Claim C2, amended: for the first route set's `registerUser` live branch
(app.js 85–108) the claim holds — a successful registration writes a profile
document whose `role` field equals the submitted role and whose `stats` field
is `{cases: 0, docs: 0}`, and invokes `sendMail` exactly once with the welcome
message.  The second route set's registration writes neither `role` nor
`stats` (see the counterexample), and the mock branch stores no stats and
attempts no email. -/
theorem c2_register_role_stats_mail (uid name email password role createdAt : String) :
    registerUser (.ok uid) name email password role createdAt
      = ⟨true, none, some (uid, registerUserDoc name email role createdAt),
          [⟨email, "Welcome to CourtEase", welcomeMailBody name role⟩]⟩
    ∧ (registerUserDoc name email role createdAt).lookup "role" = some (.str role)
    ∧ (registerUserDoc name email role createdAt).lookup "stats"
        = some (.map [("cases", .num 0), ("docs", .num 0)])
    ∧ (registerUser (.ok uid) name email password role createdAt).mails.length = 1 := by
  exact ⟨rfl, rfl, rfl, rfl⟩

/-- Claim C3, counterexample: the second route set's
`POST /api/ai/legal-research` (app.js 1384–1420), given a configured token and
an upstream failure, responds with an HTTP 500 error object — not with the
two-item landmark-case fallback list — refuting the claim for this cited
search operation. -/
theorem c3_counterexample :
    legalResearchApi true (some "valid-token") (.error ⟨none, "Network Error"⟩)
      = .err 500 "Legal research failed. Check if Indian Kanoon Token is valid." := rfl

/-- Claim C3, amended: for the first route set's `searchJudgments`
(app.js 139–157) the claim holds — with no configured token, or on any
upstream failure, the result is exactly the two-item fallback list whose
titles are the two landmark cases.  The second route set's
`POST /api/ai/legal-research` instead surfaces a 500 error (see the
counterexample). -/
theorem c3_searchJudgments_fallback (token e : String)
    (upstream : Except String (List KanoonDoc)) :
    searchJudgments none upstream = fallbackJudgments
    ∧ searchJudgments (some token) (.error e) = fallbackJudgments
    ∧ fallbackJudgments.length = 2
    ∧ fallbackJudgments.map (fun r => r.title)
        = ["Kesavananda Bharati v. State of Kerala", "Vishaka v. State of Rajasthan"] := by
  exact ⟨rfl, rfl, rfl, rfl⟩

/-- Claim C9 (confirmed): in mock mode, registration pushes the submitted
plaintext password into the in-memory record (app.js 109), and a subsequent
mock login with the same credentials returns that entire record — plaintext
password included — as the `user` payload (app.js 124–125). -/
theorem c9_mock_login_returns_plaintext_password (name email password role : String) :
    (registerUserMock [] name email password role).1 = [⟨name, email, password, role⟩]
    ∧ loginUserMock (registerUserMock [] name email password role).1 email password
        = ⟨true, some ⟨name, email, password, role⟩, none⟩ := by
  constructor
  · rfl
  · simp [registerUserMock, loginUserMock, List.find?]

/-- Claim C10 (confirmed): in live mode, when the credential exchange succeeds
but no `users/{uid}` profile document exists, `loginUser` still returns
success with the default profile payload
`{name: "User", role: "Litigant", stats: {cases: 0, docs: 0}}` (app.js 119–121). -/
theorem c10_login_missing_profile_defaults (uid email : String)
    (users : String → Option Profile) (h : users uid = none) :
    loginUserLive (.ok uid) users email
      = ⟨true, some ⟨uid, ⟨"User", "Litigant", ⟨0, 0⟩⟩, email⟩, none⟩ := by
  simp [loginUserLive, h, defaultProfile]

/-- Witness for C10 at a concrete uid, email, and empty profile store. -/
theorem c10_witness :
    loginUserLive (.ok "uid-1") (fun _ => none) "user@example.com"
      = ⟨true, some ⟨"uid-1", ⟨"User", "Litigant", ⟨0, 0⟩⟩, "user@example.com"⟩, none⟩ :=
  c10_login_missing_profile_defaults "uid-1" "user@example.com" (fun _ => none) rfl

/-- Claim C4, counterexample: in `analyzeCase` (SWOT analysis) the
`JSON.parse` call sits inside the `try` blocks, so when the model returns the
non-JSON text `"zworp zork"` on both paths, the returned summary is
`"Analysis Failed: "` plus the parse-error message — the literal raw response
text does not appear in the result, refuting the round-trip part of the claim
for the SWOT operation. -/
theorem c4_counterexample :
    analyzeCase (fun _ => (.error "Unexpected token z in JSON at position 0" :
        Except String Nat)) true true "the client facts" (.ok "zworp zork") (.ok "zworp zork")
      = .soft ⟨"Analysis Failed: Unexpected token z in JSON at position 0",
          "the client facts", [], []⟩
    ∧ ¬ ("zworp zork".data <:+:
        ("Analysis Failed: Unexpected token z in JSON at position 0").data) := by
  exact ⟨rfl, by decide⟩

/-- Claim C4, amended: no AI analysis path ever propagates an exception (every
embedded operation is total and returns a well-shaped object), and on a parse
failure `processDocument` returns an object whose summary is an explanatory
prefix followed by the cleaned (fence-stripped, trimmed) response text — the
raw text round-trips whenever it contains no fences or surrounding
whitespace.  `analyzeCase`, however, returns `"Analysis Failed: "` plus the
parse-error message, dropping the raw text (see the counterexample). -/
theorem c4_parse_failure_soft_fail (parse : String → Except String V)
    (t rt inputText em em2 : String) (rest : Except String String)
    (hp : parse (cleanFences t) = .error em)
    (hr : parse (cleanFences rt) = .error em2) :
    processDocument parse true true (.ok (some t)) rest
      = .soft ⟨"AI returned non-JSON output (SDK). Raw: " ++ cleanFences t, "", [], []⟩
    ∧ processDocumentRest parse (.ok rt)
      = .soft ⟨"AI returned non-JSON (REST). Raw: " ++ cleanFences rt, "", [], []⟩
    ∧ analyzeCase parse true true inputText (.ok t) (.ok rt)
      = .soft ⟨"Analysis Failed: " ++ em2, inputText, [], []⟩ := by
  refine ⟨?_, ?_, ?_⟩
  · simp [processDocument, hp]
  · simp [processDocumentRest, hr]
  · simp [analyzeCase, analyzeCaseRest, hp, hr]

/-- Witness for C4's amended theorem at a concrete always-failing parse
oracle and concrete response texts. -/
theorem c4_witness :
    processDocument (fun _ => (.error "SyntaxError" : Except String Nat)) true true
        (.ok (some "raw sdk text")) (.error "down")
      = .soft ⟨"AI returned non-JSON output (SDK). Raw: " ++ cleanFences "raw sdk text",
          "", [], []⟩
    ∧ processDocumentRest (fun _ => (.error "SyntaxError" : Except String Nat)) (.ok "raw rest text")
      = .soft ⟨"AI returned non-JSON (REST). Raw: " ++ cleanFences "raw rest text", "", [], []⟩
    ∧ analyzeCase (fun _ => (.error "SyntaxError" : Except String Nat)) true true "facts"
        (.ok "raw sdk text") (.ok "raw rest text")
      = .soft ⟨"Analysis Failed: " ++ "SyntaxError", "facts", [], []⟩ :=
  c4_parse_failure_soft_fail (fun _ => (.error "SyntaxError" : Except String Nat))
    "raw sdk text" "raw rest text" "facts" "SyntaxError" "SyntaxError" (.error "down") rfl rfl

/-- Claim C5, counterexample: when the SDK path of `processDocument` throws,
the handling of that single request reaches the generative-AI inference
service a second time through the raw-HTTP fallback (app.js 178–227) — two
attempts, refuting "every external call is attempted exactly once". -/
theorem c5_counterexample :
    processDocumentCalls true true (.error "SDK path failed") = 2 := rfl

/-- Claim C5, amended: there is no retry loop — every external call is
attempted at most twice per request, and only the three AI operations can
reach two attempts (one SDK call plus the single one-shot REST fallback);
search and mail are attempted at most once. -/
theorem c5_at_most_two_attempts (parse : String → Except String V)
    (haveKey haveSDK haveMailCreds : Bool) (sdk : Except String (Option String))
    (sdkTxt : Except String String) (token : Option String) :
    processDocumentCalls haveKey haveSDK sdk ≤ 2
    ∧ chatAICalls haveKey haveSDK sdkTxt ≤ 2
    ∧ analyzeCaseCalls parse haveKey haveSDK sdkTxt ≤ 2
    ∧ searchJudgmentsCalls token ≤ 1
    ∧ sendMailCalls haveMailCreds ≤ 1 := by
  refine ⟨?_, ?_, ?_, ?_, ?_⟩
  · cases haveKey with
    | false => simp [processDocumentCalls]
    | true =>
      cases haveSDK with
      | false => simp [processDocumentCalls]
      | true =>
        rcases sdk with e | t
        · simp [processDocumentCalls]
        · rcases t with _ | s <;> simp [processDocumentCalls]
  · cases haveKey with
    | false => simp [chatAICalls]
    | true =>
      cases haveSDK with
      | false => simp [chatAICalls]
      | true => rcases sdkTxt with e | t <;> simp [chatAICalls]
  · cases haveKey with
    | false => simp [analyzeCaseCalls]
    | true =>
      cases haveSDK with
      | false => simp [analyzeCaseCalls]
      | true =>
        rcases sdkTxt with e | t
        · simp [analyzeCaseCalls]
        · cases hp : parse (cleanFences t) <;> simp [analyzeCaseCalls, hp]
  · cases token <;> simp [searchJudgmentsCalls]
  · cases haveMailCreds <;> simp [sendMailCalls]

/-- Claim C6, counterexample: the case record written by the second route
set's `POST /api/ai/analyze-document` (app.js 1356–1364) has initial status
`"New Case - Review Required"` — not `"Submitted"` — and contains no notes
list and no hearing-date field at all, refuting the claim for this cited case
creation. -/
theorem c6_counterexample :
    (analyzeDocumentCaseDoc "uid-1" (.str "summary text") (.arr []) (.arr [])).lookup "status"
      = some (.str "New Case - Review Required")
    ∧ (analyzeDocumentCaseDoc "uid-1" (.str "summary text") (.arr []) (.arr [])).lookup "notes"
      = none
    ∧ (analyzeDocumentCaseDoc "uid-1" (.str "summary text") (.arr []) (.arr [])).lookup
        "hearingDate" = none
    ∧ "New Case - Review Required" ≠ "Submitted" := by
  exact ⟨rfl, rfl, rfl, by decide⟩

/-- Claim C6, amended: for the first route set's `saveCaseToDB`
(app.js 995–1011) the claim holds — for every user id and analysis result the
written case record has status `"Submitted"`, an empty notes list, and a null
hearing date.  The second route set's analyze-document case write uses a
different initial status and omits both fields (see the counterexample). -/
theorem c6_saveCase_initial_fields (nowMs nowIso userId : String) (d : CaseData) :
    (saveCaseToDB true nowMs nowIso userId d).2
        = some (saveCaseDoc ("CASE-" ++ nowMs) userId d nowIso)
    ∧ (saveCaseDoc ("CASE-" ++ nowMs) userId d nowIso).lookup "status" = some (.str "Submitted")
    ∧ (saveCaseDoc ("CASE-" ++ nowMs) userId d nowIso).lookup "notes" = some (.arr [])
    ∧ (saveCaseDoc ("CASE-" ++ nowMs) userId d nowIso).lookup "hearingDate" = some .null := by
  exact ⟨rfl, rfl, rfl, rfl⟩

/-- Claim C7 (confirmed): for every string `status` — enumerated or not — the
update-status route applies the field update with no validation, responds
`{success: true}`, resolves the owning user's email through the user store,
and attempts exactly one notification whose body names the case id and the
new status (app.js 1076–1091). -/
theorem c7_updateStatus_no_validation (st : Store) (caseId status : String)
    (c : CaseRec) (u : UserRec)
    (hc : st.cases.lookup caseId = some c)
    (hu : st.users.lookup c.userId = some u) :
    updateStatusApi true st caseId status
      = .ok ⟨setCaseStatus st.cases caseId status, true,
          [⟨u.email, "Case Update: Status Changed", statusMailBody caseId status⟩]⟩
    ∧ (setCaseStatus st.cases caseId status).lookup caseId = some { c with status := status } := by
  constructor
  · simp [updateStatusApi, hc, hu]
  · exact setCaseStatus_lookup caseId status st.cases c hc

/-- Witness for C7 at a concrete store and a status string far outside the
enumerated set. -/
theorem c7_witness :
    updateStatusApi true
        ⟨[("CASE-1700000000000", ⟨"uid-1", "Submitted", none⟩)],
          [("uid-1", ⟨"client@example.com"⟩)]⟩
        "CASE-1700000000000" "Totally Unenumerated Status"
      = .ok ⟨[("CASE-1700000000000", ⟨"uid-1", "Totally Unenumerated Status", none⟩)], true,
          [⟨"client@example.com", "Case Update: Status Changed",
            statusMailBody "CASE-1700000000000" "Totally Unenumerated Status"⟩]⟩ := by
  have h := (c7_updateStatus_no_validation
    ⟨[("CASE-1700000000000", ⟨"uid-1", "Submitted", none⟩)],
      [("uid-1", ⟨"client@example.com"⟩)]⟩
    "CASE-1700000000000" "Totally Unenumerated Status"
    ⟨"uid-1", "Submitted", none⟩ ⟨"client@example.com"⟩ rfl rfl).1
  exact h.trans rfl

/-- Claim C8 (confirmed): for a fenced upstream response
`"```json" ++ c ++ "```"` (with fence-free content `c`), the cleaning step
strips all fence markers — no backtick and in particular no fence substring
remains — and both AI analysis operations return exactly the parse of the
fenced content. -/
theorem c8_fenced_response_parsed (c : String) (parse : String → Except String V) (v : V)
    (inputText : String) (rest rt : Except String String)
    (hc : backtick ∉ c.data)
    (hp : parse (String.mk (trimChars c.data)) = .ok v) :
    cleanFences ("```json" ++ c ++ "```") = String.mk (trimChars c.data)
    ∧ (∀ a ∈ (cleanFences ("```json" ++ c ++ "```")).data, a ≠ backtick)
    ∧ ¬ fence <:+: (cleanFences ("```json" ++ c ++ "```")).data
    ∧ processDocument parse true true (.ok (some ("```json" ++ c ++ "```"))) rest = .parsed v
    ∧ analyzeCase parse true true inputText (.ok ("```json" ++ c ++ "```")) rt = .parsed v := by
  have hcf := cleanFences_fenced c hc
  have hnb := cleanFences_no_backtick c hc
  refine ⟨hcf, hnb, ?_, ?_, ?_⟩
  · rintro ⟨s, t', hst⟩
    have hbf : backtick ∈ fence := by decide
    have hmem : backtick ∈ s ++ fence ++ t' :=
      List.mem_append_left t' (List.mem_append_right s hbf)
    rw [hst] at hmem
    exact hnb backtick hmem rfl
  · simp [processDocument, hcf, hp]
  · simp [analyzeCase, hcf, hp]

/-- Witness for C8 at concrete fence-free content and a concrete parse
oracle. -/
theorem c8_witness :
    cleanFences ("```json" ++ "summary ok 42" ++ "```") = String.mk (trimChars "summary ok 42".data)
    ∧ (∀ a ∈ (cleanFences ("```json" ++ "summary ok 42" ++ "```")).data, a ≠ backtick)
    ∧ ¬ fence <:+: (cleanFences ("```json" ++ "summary ok 42" ++ "```")).data
    ∧ processDocument (fun s => if s == "summary ok 42" then (.ok 7 : Except String Nat)
        else .error "bad") true true (.ok (some ("```json" ++ "summary ok 42" ++ "```")))
        (.error "down")
      = .parsed 7
    ∧ analyzeCase (fun s => if s == "summary ok 42" then (.ok 7 : Except String Nat)
        else .error "bad") true true "facts" (.ok ("```json" ++ "summary ok 42" ++ "```"))
        (.error "down")
      = .parsed 7 :=
  c8_fenced_response_parsed "summary ok 42"
    (fun s => if s == "summary ok 42" then (.ok 7 : Except String Nat) else .error "bad") 7
    "facts" (.error "down") (.error "down") (by decide) rfl

end CourtEase
